import Mathlib

/-!
# Verification of the SignApp upload/processing orchestration client

Shallow embedding of `src/services/ApiService.ts` and `src/config/config.ts`.

Modelling conventions:
* `fetch` outcomes are values of `FetchResult`: either a transport failure
  carrying the thrown error's message, or an `HttpResponse` carrying status,
  status text, the body read as text, and the outcome of `response.json()`
  (the platform's JSON parse, abstracted as an `Except` value).
* JavaScript promise settlement is modelled by an `Option` field recording the
  first `resolve`/`reject` call; later calls are no-ops, as in the ECMAScript
  promise semantics.
* The event-driven parts (`connectToProcessing`'s WebSocket handlers,
  `processVideo`'s executor) are modelled as step functions over explicit
  state, driven by environment events (socket open/message/error/close,
  timer firings, upload settlement), and emitting a trace of observable
  effects (callback invocations, socket closes, timer scheduling).
-/

namespace SignApp

/-- `interface UploadResponse { status: string; video_id: string }`.
At runtime the parsed JSON is unchecked, so either field may be absent
(`undefined`), modelled by `Option`. -/
structure UploadResponse where
  status : Option String
  video_id : Option String
deriving DecidableEq, Repr

/-- The `status` field of `interface ProcessingStatus`:
`'processing' | 'done' | 'timeout' | 'error'`. -/
inductive StatusTag
  | processing
  | done
  | timeout
  | error
deriving DecidableEq, Repr

/-- `prediction` field of `interface ProcessingResult`. -/
structure Prediction where
  class_id : Int
  class_name : String
deriving DecidableEq, Repr

/-- The `status` field of `interface ProcessingResult`: `'completed' | 'error'`. -/
inductive ResultTag
  | completed
  | error
deriving DecidableEq, Repr

/-- `interface ProcessingResult`. -/
structure ProcessingResult where
  id : String
  status : ResultTag
  prediction : Option Prediction := none
  processing_time : Option Nat := none
  timestamp : Option Nat := none
  video_tensor_file : Option String := none
  landmark_file : Option String := none
  landmark_shape : Option (List Nat) := none
  error : Option String := none
deriving DecidableEq, Repr

/-- `interface ProcessingStatus`. -/
structure ProcessingStatus where
  status : StatusTag
  video_id : Option String := none
  result : Option ProcessingResult := none
deriving DecidableEq, Repr

instance {ε α : Type} [DecidableEq ε] [DecidableEq α] : DecidableEq (Except ε α) := fun a b =>
  match a, b with
  | .ok x, .ok y =>
    if h : x = y then isTrue (h ▸ rfl) else isFalse (fun hh => h (Except.ok.inj hh))
  | .error x, .error y =>
    if h : x = y then isTrue (h ▸ rfl) else isFalse (fun hh => h (Except.error.inj hh))
  | .ok _, .error _ => isFalse (fun hh => Except.noConfusion hh)
  | .error _, .ok _ => isFalse (fun hh => Except.noConfusion hh)

/-- An HTTP response as seen by the client: status line, body read as text
(`response.text()`), and the outcome of `response.json()` (`.error m` when the
body is not valid JSON and the parse throws with message `m`). -/
structure HttpResponse where
  status : Nat
  statusText : String
  body : String
  jsonBody : Except String UploadResponse
deriving DecidableEq, Repr

/-- `response.ok`: status in the inclusive range 200-299. -/
def HttpResponse.ok (r : HttpResponse) : Bool :=
  200 ≤ r.status && r.status < 300

/-- Outcome of an `await fetch(...)`: a response, or a thrown transport error
carrying its message. -/
inductive FetchResult
  | success (r : HttpResponse)
  | failure (message : String)
deriving DecidableEq, Repr

/-- Whether the character list `l` starts with the character list `p`. -/
def charsStart : List Char → List Char → Bool
  | _, [] => true
  | [], _ :: _ => false
  | c :: cs, p :: ps => (c = p) && charsStart cs ps

/-- Whether `p` occurs as a contiguous run inside `l`. -/
def charsContain : List Char → List Char → Bool
  | [], p => charsStart [] p
  | c :: rest, p => charsStart (c :: rest) p || charsContain rest p

/-- `String.includes` of JavaScript: `pat` occurs as a substring of `s`. -/
def containsStr (s pat : String) : Bool :=
  charsContain s.data pat.data

/-! ## `config/config.ts` -/

/-- `interface AppConfig` from `config/config.ts`. -/
structure AppConfig where
  API_BASE_URL : String
  WS_BASE_URL : String
  UPLOAD_TIMEOUT : Nat
  PROCESSING_TIMEOUT : Nat
  MAX_RETRY_ATTEMPTS : Nat
deriving DecidableEq, Repr

/-- `DEV_CONFIG` from `config/config.ts`. -/
def DEV_CONFIG : AppConfig where
  API_BASE_URL := "https://boulevard-thorough-lives-cuts.trycloudflare.com"
  WS_BASE_URL := "wss://boulevard-thorough-lives-cuts.trycloudflare.com"
  UPLOAD_TIMEOUT := 60000
  PROCESSING_TIMEOUT := 180000
  MAX_RETRY_ATTEMPTS := 3

/-- `PROD_CONFIG` from `config/config.ts`. -/
def PROD_CONFIG : AppConfig where
  API_BASE_URL := "http://YOUR_PRODUCTION_SERVER:8000"
  WS_BASE_URL := "ws://YOUR_PRODUCTION_SERVER:8000"
  UPLOAD_TIMEOUT := 60000
  PROCESSING_TIMEOUT := 180000
  MAX_RETRY_ATTEMPTS := 5

/-- `CONFIG = isDevelopment ? DEV_CONFIG : PROD_CONFIG`. -/
def CONFIG (isDevelopment : Bool) : AppConfig :=
  if isDevelopment then DEV_CONFIG else PROD_CONFIG

/-! ## Literal constants appearing in `ApiService.ts`

`ApiService` does not import `config/config.ts`; the timeouts and the retry
cap are the numeric literals below, written directly at their use sites. -/

/-- The literal `180000` in `processVideo`'s overall `setTimeout`. -/
def overallTimeoutMs : Nat := 180000

/-- The literal `120000` in the upload-race `setTimeout` inside `processVideo`. -/
def uploadRaceTimeoutMs : Nat := 120000

/-- `const maxReconnectAttempts = 3` in `connectToProcessing`. -/
def maxReconnectAttempts : Nat := 3

/-! ## `uploadVideo` -/

/-- The message of the error thrown on a non-2xx upload response:
`Upload failed: ${status} ${statusText} - ${errorText}`. -/
def uploadErrorHttpMsg (r : HttpResponse) : String :=
  "Upload failed: " ++ toString r.status ++ " " ++ r.statusText ++ " - " ++ r.body

/-- Body of `uploadVideo`'s `try` block: throw on transport failure, throw the
HTTP-error message on a non-2xx response, otherwise return `response.json()`
(whose parse may itself throw). -/
def uploadTryBlock (f : FetchResult) : Except String UploadResponse :=
  match f with
  | .failure msg => .error msg
  | .success r =>
    if r.ok then
      match r.jsonBody with
      | .ok j => .ok j
      | .error m => .error m
    else
      .error (uploadErrorHttpMsg r)

/-- `uploadVideo`: the `try` block above, with the `catch` clause rewriting the
error by pattern-matching on its message (`error.message.includes(...)`). -/
def uploadVideo (f : FetchResult) : Except String UploadResponse :=
  match uploadTryBlock f with
  | .ok j => .ok j
  | .error m =>
    if containsStr m "Network request failed" then
      .error "Cannot connect to server. Please check your internet connection and server address."
    else if containsStr m "timeout" then
      .error "Upload timed out. Please try again with a smaller video file."
    else
      .error ("Upload failed: " ++ m)

/-! ## `checkServerHealth` -/

/-- Return type of `checkServerHealth`. -/
structure HealthResult where
  isHealthy : Bool
  error : Option String
deriving DecidableEq, Repr

/-- `error.message || 'Connection failed'`: an empty message is falsy. -/
def healthCatchMsg (m : String) : String :=
  if m = "" then "Connection failed" else m

/-- `checkServerHealth`: GET the health endpoint; on `response.ok` parse the
body as JSON (a parse failure throws into the `catch`), on non-2xx report the
status line, on a thrown error report its message (never throws itself). -/
def checkServerHealth (f : FetchResult) : HealthResult :=
  match f with
  | .failure msg => ⟨false, some (healthCatchMsg msg)⟩
  | .success r =>
    if r.ok then
      match r.jsonBody with
      | .ok _ => ⟨true, none⟩
      | .error m => ⟨false, some (healthCatchMsg m)⟩
    else
      ⟨false, some ("Server returned " ++ toString r.status ++ ": " ++ r.statusText)⟩

/-! ## `connectToProcessing`: the live status channel

The per-session mutable variables of `connectToProcessing` (`ws`,
`isConnected`, `reconnectAttempts`, `messageCount`, plus the pending
`setTimeout(connect, retryDelay)` handle) form `ChannelState`. The WebSocket
handlers and the returned cleanup closure are the cases of `channelStep`,
driven by environment events. Observable actions (callback invocations,
`ws.close` calls, `setTimeout` scheduling, `new WebSocket` creation) are
emitted as `ChannelEffect`s. `onMessage` carries the outcome of
`JSON.parse(event.data)` (`none` = the parse threw). -/

structure ChannelState where
  wsCreated : Bool
  isConnected : Bool
  reconnectAttempts : Nat
  messageCount : Nat
  pendingReconnect : Option Nat
deriving DecidableEq, Repr

inductive ChannelEvent
  /-- the socket's `onopen` handler fires -/
  | onOpen
  /-- the socket's `onmessage` handler fires; carries the `JSON.parse` outcome -/
  | onMessage (parsed : Option ProcessingStatus)
  /-- the socket's `onerror` handler fires -/
  | onSocketError
  /-- the socket's `onclose` handler fires with close code `code` -/
  | onClose (code : Nat)
  /-- a scheduled reconnect timer fires, re-invoking `connect()`;
  `creationFails` tells whether `new WebSocket(wsUrl)` throws -/
  | reconnectFire (creationFails : Bool)
  /-- the caller invokes the returned cleanup closure -/
  | cleanup
deriving DecidableEq, Repr

inductive ChannelEffect
  /-- `onStatusUpdate(data)` -/
  | statusUpdate (st : ProcessingStatus)
  /-- `onError(new Error(msg))` -/
  | errorCb (msg : String)
  /-- `ws.close(code, reason)` -/
  | wsClose (code : Nat) (reason : String)
  /-- `setTimeout(connect, delayMs)` -/
  | scheduleReconnect (delayMs : Nat)
  /-- `new WebSocket(wsUrl)` succeeds inside `connect()` -/
  | connectCall
deriving DecidableEq, Repr

/-- The local function `connect()`: create the socket (install handlers), or
fall into its `catch` and report `Failed to establish WebSocket connection`. -/
def connect (creationFails : Bool) (s : ChannelState) : ChannelState × List ChannelEffect :=
  if creationFails then
    (s, [.errorCb "Failed to establish WebSocket connection"])
  else
    ({ s with wsCreated := true }, [.connectCall])

/-- One event of a channel session, exactly mirroring the handler bodies in
`connectToProcessing`. -/
def channelStep (s : ChannelState) : ChannelEvent → ChannelState × List ChannelEffect
  | .onOpen =>
    ({ s with isConnected := true, reconnectAttempts := 0 }, [])
  | .onMessage parsed =>
    let s1 := { s with messageCount := s.messageCount + 1 }
    match parsed with
    | some data =>
      if data.status = .done ∨ data.status = .timeout ∨ data.status = .error then
        (s1, [.statusUpdate data, .wsClose 1000 "Processing complete"])
      else
        (s1, [.statusUpdate data])
    | none =>
      (s1, [.errorCb "Failed to parse server response"])
  | .onSocketError =>
    (s, [.errorCb "WebSocket connection error"])
  | .onClose code =>
    let s1 := { s with isConnected := false }
    if code ≠ 1000 ∧ s1.reconnectAttempts < maxReconnectAttempts then
      let retryDelay := 2000 * (s1.reconnectAttempts + 1)
      ({ s1 with reconnectAttempts := s1.reconnectAttempts + 1,
                 pendingReconnect := some retryDelay },
       [.scheduleReconnect retryDelay])
    else if code ≠ 1000 then
      (s1, [.errorCb "WebSocket connection failed after multiple attempts"])
    else
      (s1, [])
  | .reconnectFire creationFails =>
    connect creationFails { s with pendingReconnect := none }
  | .cleanup =>
    if s.wsCreated ∧ s.isConnected then
      (s, [.wsClose 1000 "Manual disconnect"])
    else
      (s, [])

/-- Session state before the initial `connect()` call. -/
def channelInitState : ChannelState :=
  ⟨false, false, 0, 0, none⟩

/-- A whole channel session: the initial `connect()` call of
`connectToProcessing`, then the given events in order. -/
def channelRun (creationFails : Bool) (events : List ChannelEvent) :
    ChannelState × List ChannelEffect :=
  events.foldl
    (fun acc e =>
      let next := channelStep acc.1 e
      (next.1, acc.2 ++ next.2))
    (connect creationFails channelInitState)

/-! ## `processVideo`: the orchestrator

`processVideo` runs a promise executor: it synchronously arms the 180000 ms
overall timer, reports initial status and progress, and starts the upload
raced against a 120000 ms timer; it then suspends until the race settles, and
afterwards reacts only through the channel callbacks, the timers, and the
`catch` clause. We model it as an initial synchronous prefix (`orchInit*`)
followed by a step function over environment events.

Settlement follows the ECMAScript promise semantics: only the first
`resolve`/`reject` call is observed (emitted as a `.settle` effect and
recorded in `settled`); later calls are silent no-ops. Note that a settled
promise does not stop the executor or the installed callbacks from running:
later events still drive `onProgress`/`onStatusUpdate` effects. -/

/-- The string a JavaScript template literal renders for an optional field:
`undefined` when absent. -/
def jsShow (o : Option String) : String :=
  match o with
  | some s => s
  | none => "undefined"

/-- Where the executor's sequential body stands: still awaiting the upload
race, or past it (the body has returned, only callbacks/timers remain). -/
inductive OrchPhase
  | awaitingUpload
  | finished
deriving DecidableEq, Repr

structure OrchState where
  phase : OrchPhase
  /-- the promise's recorded settlement: `.ok` = resolved with a
  `ProcessingStatus`, `.error` = rejected with an error message -/
  settled : Option (Except String ProcessingStatus)
  /-- `clearTimeout(timeoutId)` has been called on the overall timer -/
  timerCleared : Bool
  /-- the overall 180000 ms timer has fired -/
  timerFired : Bool
  /-- the upload `fetch` promise has settled (at most once) -/
  uploadSettled : Bool
  /-- the 120000 ms upload-race timer has fired (it is never cleared) -/
  uploadTimerFired : Bool
  /-- `connectToProcessing` has been invoked (so `wsCleanup` is non-null and
  channel callbacks can fire) -/
  channelOpened : Bool
deriving DecidableEq, Repr

inductive OrchEvent
  /-- the upload `fetch` resolves with parsed body `j` -/
  | uploadResolved (j : UploadResponse)
  /-- the upload `fetch` rejects; `msg` is the message after `uploadVideo`'s
  own `catch` rewriting -/
  | uploadRejected (msg : String)
  /-- the 120000 ms upload-race timer fires -/
  | uploadTimerFire
  /-- the 180000 ms overall timer fires -/
  | overallTimerFire
  /-- the channel delivers a status frame; `rand30` abstracts the sampled
  `Math.random() * 30` used for the `processing` progress value -/
  | frame (st : ProcessingStatus) (rand30 : Nat)
  /-- the channel invokes the orchestrator's error callback -/
  | wsError (msg : String)
deriving DecidableEq, Repr

inductive OrchEffect
  /-- `onProgress(n)` -/
  | progress (n : Nat)
  /-- `onStatusUpdate(msg)` -/
  | statusText (msg : String)
  /-- the promise settles (first `resolve`/`reject` call only) -/
  | settle (outcome : Except String ProcessingStatus)
  /-- `this.connectToProcessing(videoId, ...)` -/
  | openChannel (videoId : Option String)
  /-- `wsCleanup()` is invoked -/
  | wsCleanupCall
deriving DecidableEq, Repr

/-- A `resolve`/`reject` call: records and emits the settlement if the promise
is still pending, otherwise does nothing. -/
def trySettle (s : OrchState) (o : Except String ProcessingStatus) :
    OrchState × List OrchEffect :=
  match s.settled with
  | some _ => (s, [])
  | none => ({ s with settled := some o }, [.settle o])

/-- The rejection message of the overall timer: the literal in
`reject(new Error('Overall processing timeout (3 minutes)'))`. -/
def overallTimeoutMsg : String := "Overall processing timeout (3 minutes)"

/-- One environment event against `processVideo`'s executor, callbacks and
timers. -/
def orchStep (s : OrchState) : OrchEvent → OrchState × List OrchEffect
  | .uploadResolved j =>
    let s1 := { s with uploadSettled := true }
    match s1.phase with
    | .finished => (s1, [])
    | .awaitingUpload =>
      if j.status = some "received" then
        ({ s1 with phase := .finished, channelOpened := true },
         [.progress 30, .statusText "Video uploaded, starting analysis...",
          .openChannel j.video_id])
      else
        -- `throw` into the catch clause: clearTimeout, wsCleanup is null, reject
        let s2 := { s1 with phase := .finished, timerCleared := true }
        trySettle s2 (.error ("Upload failed with status: " ++ jsShow j.status))
  | .uploadRejected msg =>
    let s1 := { s with uploadSettled := true }
    match s1.phase with
    | .finished => (s1, [])
    | .awaitingUpload =>
      let s2 := { s1 with phase := .finished, timerCleared := true }
      trySettle s2 (.error msg)
  | .uploadTimerFire =>
    let s1 := { s with uploadTimerFired := true }
    match s1.phase with
    | .finished => (s1, [])
    | .awaitingUpload =>
      let s2 := { s1 with phase := .finished, timerCleared := true }
      trySettle s2 (.error "Upload timeout after 2 minutes")
  | .overallTimerFire =>
    let s1 := { s with timerFired := true }
    trySettle s1 (.error overallTimeoutMsg)
  | .frame st rand30 =>
    match st.status with
    | .processing =>
      (s, [.progress (min 90 (40 + rand30)),
           .statusText "Processing landmarks and analyzing gestures..."])
    | .done =>
      let s1 := { s with timerCleared := true }
      let next := trySettle s1 (.ok st)
      (next.1, [.progress 100, .statusText "Analysis complete!"] ++ next.2)
    | .timeout =>
      let s1 := { s with timerCleared := true }
      let next := trySettle s1 (.error "Server processing timed out")
      (next.1, [.progress 100, .statusText "Processing timeout"] ++ next.2)
    | .error =>
      let s1 := { s with timerCleared := true }
      let next := trySettle s1 (.error "Server processing error")
      (next.1, [.progress 100, .statusText "Processing failed"] ++ next.2)
  | .wsError msg =>
    let s1 := { s with timerCleared := true }
    trySettle s1 (.error msg)

/-- Executor state right after its synchronous prefix (timer armed, initial
status/progress reported, upload race started). -/
def orchInitState : OrchState :=
  ⟨.awaitingUpload, none, false, false, false, false, false⟩

/-- Effects of the executor's synchronous prefix:
`onStatusUpdate('Uploading video...')`, `onProgress(10)`. -/
def orchInitEffects : List OrchEffect :=
  [.statusText "Uploading video...", .progress 10]

/-- Run the events from a given state, collecting the emitted effects. -/
def orchRunFrom (s : OrchState) : List OrchEvent → OrchState × List OrchEffect
  | [] => (s, [])
  | e :: es =>
    let next := orchStep s e
    let rest := orchRunFrom next.1 es
    (rest.1, next.2 ++ rest.2)

/-- A whole `processVideo` invocation: synchronous prefix, then the events. -/
def orchRun (events : List OrchEvent) : OrchState × List OrchEffect :=
  let r := orchRunFrom orchInitState events
  (r.1, orchInitEffects ++ r.2)

/-- Whether an event can occur at a given state: each timer fires at most once
and only if not cleared, the upload `fetch` settles at most once, and channel
callbacks require the channel to have been opened. -/
def orchEventOk (s : OrchState) : OrchEvent → Bool
  | .uploadResolved _ => !s.uploadSettled
  | .uploadRejected _ => !s.uploadSettled
  | .uploadTimerFire => !s.uploadTimerFired
  | .overallTimerFire => !s.timerCleared && !s.timerFired
  | .frame _ _ => s.channelOpened
  | .wsError _ => s.channelOpened

/-- Validity of an event sequence from a given state. -/
def orchValidFrom (s : OrchState) : List OrchEvent → Bool
  | [] => true
  | e :: es => orchEventOk s e && orchValidFrom (orchStep s e).1 es

/-- Validity of an event sequence for a fresh invocation. -/
def orchValid (events : List OrchEvent) : Bool :=
  orchValidFrom orchInitState events

/-- A run is complete when no further event is forced: the overall timer has
either been cleared or has already fired (an armed timer would still fire). -/
def orchComplete (s : OrchState) : Bool :=
  s.timerCleared || s.timerFired

/-- Number of observed settlements in an effect trace. -/
def settleCount (tr : List OrchEffect) : Nat :=
  (tr.filter fun e => match e with | .settle _ => true | _ => false).length

/-- 1 when the promise has settled, 0 while it is pending. -/
def settledNat (s : OrchState) : Nat :=
  if s.settled.isSome then 1 else 0

/-- Invariant tying the overall timer to settlement: `clearTimeout` is only
ever called in a handler that settles in the same step, and the timer's own
firing settles. -/
def OrchTimerInv (s : OrchState) : Prop :=
  (s.timerCleared = true → s.settled.isSome = true)
  ∧ (s.timerFired = true → s.settled.isSome = true)

/-- Event sequence refuting C1: the upload succeeds and the channel opens, the
overall deadline fires while the channel is still processing, then one more
`processing` frame arrives. -/
def overallTimeoutCexEvents : List OrchEvent :=
  [.uploadResolved ⟨some "received", some "v1"⟩,
   .overallTimerFire,
   .frame ⟨.processing, none, none⟩ 5]

end SignApp

/-! # Theorems settling the claims -/

namespace SignApp

/-- C6 (counterexample): a non-2xx response whose body contains the word
`timeout` is rewritten by `uploadVideo`'s catch clause into the generic
upload-timed-out hint, which contains neither the status code `503` nor the
body `upstream timeout` — so the claim's universal statement fails. -/
theorem uploadVideo_timeout_body_cex :
    HttpResponse.ok ⟨503, "Service Unavailable", "upstream timeout", .error "x"⟩ = false
    ∧ uploadVideo (.success ⟨503, "Service Unavailable", "upstream timeout", .error "x"⟩) =
        .error "Upload timed out. Please try again with a smaller video file."
    ∧ containsStr "Upload timed out. Please try again with a smaller video file." "503" = false
    ∧ containsStr "Upload timed out. Please try again with a smaller video file."
        "upstream timeout" = false := by
  decide

/-- C6 (amended): for every non-2xx upload response whose composed HTTP-error
message contains neither `Network request failed` nor `timeout`, `uploadVideo`
fails with `Upload failed: ` prepended to that composed message
`Upload failed: <status> <statusText> - <body>` — a message that embeds the
status code, the status text and the body. -/
theorem uploadVideo_http_error_message (r : HttpResponse)
    (hok : r.ok = false)
    (h1 : containsStr (uploadErrorHttpMsg r) "Network request failed" = false)
    (h2 : containsStr (uploadErrorHttpMsg r) "timeout" = false) :
    uploadVideo (.success r) = .error ("Upload failed: " ++ uploadErrorHttpMsg r) := by
  simp [uploadVideo, uploadTryBlock, hok, h1, h2]

/-- C6 (witness): the claim's own scenario — status 500, body `disk full` —
yields a message containing both `500` and `disk full`. -/
theorem uploadVideo_http_error_message_witness :
    uploadVideo (.success ⟨500, "Internal Server Error", "disk full", .error "x"⟩) =
      .error "Upload failed: Upload failed: 500 Internal Server Error - disk full"
    ∧ containsStr "Upload failed: Upload failed: 500 Internal Server Error - disk full"
        "500" = true
    ∧ containsStr "Upload failed: Upload failed: 500 Internal Server Error - disk full"
        "disk full" = true := by
  refine ⟨?_, by decide, by decide⟩
  have h := uploadVideo_http_error_message
    ⟨500, "Internal Server Error", "disk full", .error "x"⟩
    (by decide) (by decide) (by decide)
  rw [h]; decide

/-- C7 (counterexample): a 2xx response whose body is not valid JSON makes
`response.json()` throw inside the `try`, so `checkServerHealth` reports
unhealthy despite the 2xx status — refuting `healthy=true on any 2xx`. -/
theorem checkServerHealth_nonjson_cex :
    HttpResponse.ok ⟨200, "OK", "plain text", .error "Unexpected token p"⟩ = true
    ∧ checkServerHealth (.success ⟨200, "OK", "plain text", .error "Unexpected token p"⟩) =
        ⟨false, some "Unexpected token p"⟩ := by
  decide

/-- C7 (amended): `checkServerHealth` is a total function of the fetch outcome
(never throws, always resolves); it returns healthy on a 2xx response whose
body parses as JSON, and unhealthy with a descriptive message on a transport
failure, a non-2xx response, or a 2xx response with an unparseable body. -/
theorem checkServerHealth_cases (f : FetchResult) :
    (∀ m, f = .failure m → checkServerHealth f = ⟨false, some (healthCatchMsg m)⟩)
    ∧ (∀ r, f = .success r → r.ok = false →
        checkServerHealth f =
          ⟨false, some ("Server returned " ++ toString r.status ++ ": " ++ r.statusText)⟩)
    ∧ (∀ r j, f = .success r → r.ok = true → r.jsonBody = .ok j →
        checkServerHealth f = ⟨true, none⟩)
    ∧ (∀ r m, f = .success r → r.ok = true → r.jsonBody = .error m →
        checkServerHealth f = ⟨false, some (healthCatchMsg m)⟩)
    ∧ ((checkServerHealth f).isHealthy = false → (checkServerHealth f).error ≠ none) := by
  refine ⟨?_, ?_, ?_, ?_, ?_⟩
  · rintro m rfl; rfl
  · rintro r rfl hok; simp [checkServerHealth, hok]
  · rintro r j rfl hok hj; simp [checkServerHealth, hok, hj]
  · rintro r m rfl hok hj; simp [checkServerHealth, hok, hj]
  · rcases f with r | m
    · rcases hok : r.ok with _ | _
      · simp [checkServerHealth, hok]
      · rcases hj : r.jsonBody with j | m2 <;> simp [checkServerHealth, hok, hj]
    · simp [checkServerHealth]

/-- C7 (witness): an unreachable host resolves (is a defined value, not a
thrown error) with `isHealthy = false` and a message. -/
theorem checkServerHealth_cases_witness :
    checkServerHealth (.failure "Network request failed") =
      ⟨false, some "Network request failed"⟩ := by
  have h := (checkServerHealth_cases (.failure "Network request failed")).1
    "Network request failed" rfl
  rw [h]; decide

/-- C9: the configured values are not what the code runs with — `processVideo`
races the upload against the literal 120000 ms (while `CONFIG.UPLOAD_TIMEOUT`
is 60000 in both environments) and `connectToProcessing` caps reconnection at
the literal 3 (while the production `MAX_RETRY_ATTEMPTS` is 5); `ApiService`
never reads `CONFIG`. -/
theorem config_values_not_used :
    uploadRaceTimeoutMs = 120000
    ∧ overallTimeoutMs = 180000
    ∧ maxReconnectAttempts = 3
    ∧ DEV_CONFIG.UPLOAD_TIMEOUT = 60000
    ∧ uploadRaceTimeoutMs ≠ DEV_CONFIG.UPLOAD_TIMEOUT
    ∧ uploadRaceTimeoutMs ≠ PROD_CONFIG.UPLOAD_TIMEOUT
    ∧ (CONFIG false).MAX_RETRY_ATTEMPTS = 5
    ∧ maxReconnectAttempts ≠ (CONFIG false).MAX_RETRY_ATTEMPTS := by
  decide

end SignApp

namespace SignApp

/-- C10: a 2xx upload response whose body parses as JSON is returned by
`uploadVideo` exactly as parsed — no validation of `status` or `video_id` —
and the accepted-sentinel check (`status === 'received'`) is applied only by
`processVideo` after the upload resolves: a non-`received` (or missing)
status makes the orchestrator throw into its catch and reject, while
`received` lets it open the channel. -/
theorem uploadVideo_returns_body_as_is (r : HttpResponse) (j : UploadResponse)
    (hok : r.ok = true) (hj : r.jsonBody = .ok j) :
    uploadVideo (.success r) = .ok j
    ∧ (∀ s : OrchState, s.phase = .awaitingUpload → s.settled = none →
        j.status ≠ some "received" →
        orchStep s (.uploadResolved j) =
          ({ s with phase := .finished, timerCleared := true, uploadSettled := true,
                    settled := some (.error ("Upload failed with status: " ++ jsShow j.status)) },
           [.settle (.error ("Upload failed with status: " ++ jsShow j.status))]))
    ∧ (∀ s : OrchState, s.phase = .awaitingUpload → j.status = some "received" →
        orchStep s (.uploadResolved j) =
          ({ s with phase := .finished, uploadSettled := true, channelOpened := true },
           [.progress 30, .statusText "Video uploaded, starting analysis...",
            .openChannel j.video_id])) := by
  refine ⟨?_, ?_, ?_⟩
  · simp [uploadVideo, uploadTryBlock, hok, hj]
  · rintro ⟨ph, sd, tc, tf, us, utf, co⟩ hph hsd hj2
    dsimp at hph hsd
    subst hph; subst hsd
    simp [orchStep, trySettle, hj2]
  · rintro ⟨ph, sd, tc, tf, us, utf, co⟩ hph hj2
    dsimp at hph
    subst hph
    simp [orchStep, hj2]

/-- C10 (witness): a 2xx body with an arbitrary `status` value is returned
unchanged by `uploadVideo`. -/
theorem uploadVideo_returns_body_as_is_witness :
    uploadVideo (.success ⟨200, "OK", "raw body", .ok ⟨some "weird", some "vid7"⟩⟩) =
      .ok ⟨some "weird", some "vid7"⟩ :=
  (uploadVideo_returns_body_as_is ⟨200, "OK", "raw body", .ok ⟨some "weird", some "vid7"⟩⟩
    ⟨some "weird", some "vid7"⟩ (by decide) rfl).1

/-- C3 (counterexample): after an abnormal close has scheduled a reconnect,
the returned cleanup closure finds `isConnected = false`, does nothing, and
the pending reconnect timer still fires and re-invokes `connect` — the
teardown does not suppress an already-scheduled reconnection attempt. -/
theorem cleanup_pending_reconnect_cex :
    (channelRun false [.onOpen, .onClose 1006]).1.pendingReconnect = some 2000
    ∧ channelStep (channelRun false [.onOpen, .onClose 1006]).1 .cleanup =
        ((channelRun false [.onOpen, .onClose 1006]).1, [])
    ∧ (channelStep (channelRun false [.onOpen, .onClose 1006]).1 (.reconnectFire false)).2 =
        [.connectCall] := by
  decide

/-- C3 (amended): the cleanup closure closes the socket with the normal code
1000 exactly when the socket exists and is currently connected, and is a
state-preserving no-op whenever the connection is not open — in particular
after terminal resolution; it does not cancel a scheduled reconnection. -/
theorem cleanup_close_behavior (s : ChannelState) :
    (s.wsCreated = true → s.isConnected = true →
      channelStep s .cleanup = (s, [.wsClose 1000 "Manual disconnect"]))
    ∧ (s.isConnected = false → channelStep s .cleanup = (s, [])) := by
  constructor
  · intro h1 h2; simp [channelStep, h1, h2]
  · intro h; simp [channelStep, h]

/-- C3 (witness): cleanup on a connected session closes with code 1000; on a
session whose connection has terminally closed it is a no-op. -/
theorem cleanup_close_behavior_witness :
    channelStep ⟨true, true, 0, 2, none⟩ .cleanup =
      (⟨true, true, 0, 2, none⟩, [.wsClose 1000 "Manual disconnect"])
    ∧ channelStep ⟨true, false, 0, 3, none⟩ .cleanup = (⟨true, false, 0, 3, none⟩, []) :=
  ⟨(cleanup_close_behavior ⟨true, true, 0, 2, none⟩).1 rfl rfl,
   (cleanup_close_behavior ⟨true, false, 0, 3, none⟩).2 rfl⟩

/-- C4: an abnormal close (code ≠ 1000) with attempt count `n` below the
maximum of 3 schedules a reconnect after exactly `2000 * (n + 1)` ms and
increments the count, and the scheduled timer re-invokes `connect`; with the
count at 3 it instead surfaces the exhausted-reconnection error and schedules
nothing. -/
theorem reconnect_backoff_policy (s : ChannelState) (code : Nat) (h : code ≠ 1000) :
    (s.reconnectAttempts < maxReconnectAttempts →
      channelStep s (.onClose code) =
        ({ s with isConnected := false,
                  reconnectAttempts := s.reconnectAttempts + 1,
                  pendingReconnect := some (2000 * (s.reconnectAttempts + 1)) },
         [.scheduleReconnect (2000 * (s.reconnectAttempts + 1))]))
    ∧ (s.reconnectAttempts = maxReconnectAttempts →
      channelStep s (.onClose code) =
        ({ s with isConnected := false },
         [.errorCb "WebSocket connection failed after multiple attempts"]))
    ∧ (∀ t : ChannelState, channelStep t (.reconnectFire false) =
        ({ t with pendingReconnect := none, wsCreated := true }, [.connectCall])) := by
  refine ⟨?_, ?_, ?_⟩
  · intro hlt; simp [channelStep, h, hlt]
  · intro heq; simp [channelStep, h, heq]
  · intro t; simp [channelStep, connect]

/-- C4 (witness): the first three abnormal closes are rescheduled after 2 s,
4 s, 6 s, and the fourth surfaces the exhaustion error. -/
theorem reconnect_backoff_policy_witness :
    channelStep ⟨true, false, 0, 0, none⟩ (.onClose 1006) =
      (⟨true, false, 1, 0, some 2000⟩, [.scheduleReconnect 2000])
    ∧ channelStep ⟨true, false, 1, 0, none⟩ (.onClose 1006) =
      (⟨true, false, 2, 0, some 4000⟩, [.scheduleReconnect 4000])
    ∧ channelStep ⟨true, false, 2, 0, none⟩ (.onClose 1006) =
      (⟨true, false, 3, 0, some 6000⟩, [.scheduleReconnect 6000])
    ∧ channelStep ⟨true, false, 3, 0, none⟩ (.onClose 1006) =
      (⟨true, false, 3, 0, none⟩,
       [.errorCb "WebSocket connection failed after multiple attempts"]) :=
  ⟨(reconnect_backoff_policy ⟨true, false, 0, 0, none⟩ 1006 (by decide)).1 (by decide),
   (reconnect_backoff_policy ⟨true, false, 1, 0, none⟩ 1006 (by decide)).1 (by decide),
   (reconnect_backoff_policy ⟨true, false, 2, 0, none⟩ 1006 (by decide)).1 (by decide),
   (reconnect_backoff_policy ⟨true, false, 3, 0, none⟩ 1006 (by decide)).2.1 rfl⟩

/-- C5: a frame parsed with terminal status (`done`, `timeout`, `error`) is
delivered via `onStatusUpdate` first and the channel then closes itself with
code 1000 (reason `Processing complete`), and a close with code 1000 never
schedules a reconnection nor reports an error. -/
theorem terminal_frame_closes_channel (s : ChannelState) (st : ProcessingStatus)
    (h : st.status = .done ∨ st.status = .timeout ∨ st.status = .error) :
    channelStep s (.onMessage (some st)) =
      ({ s with messageCount := s.messageCount + 1 },
       [.statusUpdate st, .wsClose 1000 "Processing complete"])
    ∧ (∀ t : ChannelState, channelStep t (.onClose 1000) =
        ({ t with isConnected := false }, [])) := by
  constructor
  · rcases h with h | h | h <;> simp [channelStep, h]
  · intro t; simp [channelStep]

/-- C5 (witness): a `done` frame is delivered then self-closed with 1000, and
the 1000-close causes no reconnection. -/
theorem terminal_frame_closes_channel_witness :
    channelStep ⟨true, true, 0, 0, none⟩ (.onMessage (some ⟨.done, some "v1", none⟩)) =
      (⟨true, true, 0, 1, none⟩,
       [.statusUpdate ⟨.done, some "v1", none⟩, .wsClose 1000 "Processing complete"])
    ∧ channelStep ⟨true, true, 0, 1, none⟩ (.onClose 1000) = (⟨true, false, 0, 1, none⟩, []) :=
  ⟨(terminal_frame_closes_channel ⟨true, true, 0, 0, none⟩ ⟨.done, some "v1", none⟩
      (Or.inl rfl)).1,
   (terminal_frame_closes_channel ⟨true, true, 0, 1, none⟩ ⟨.done, some "v1", none⟩
      (Or.inl rfl)).2 ⟨true, true, 0, 1, none⟩⟩

end SignApp

namespace SignApp

theorem settleCount_append (a b : List OrchEffect) :
    settleCount (a ++ b) = settleCount a + settleCount b := by
  simp [settleCount, List.filter_append]

theorem orchRun_trace (events : List OrchEvent) :
    (orchRun events).2 = orchInitEffects ++ (orchRunFrom orchInitState events).2 := rfl

theorem orchStep_inv (s : OrchState) (e : OrchEvent) (h : OrchTimerInv s) :
    OrchTimerInv (orchStep s e).1
    ∧ settledNat s + settleCount (orchStep s e).2 = settledNat (orchStep s e).1 := by
  obtain ⟨ph, sd, tc, tf, us, utf, co⟩ := s
  obtain ⟨h1, h2⟩ := h
  cases e <;> cases ph <;> rcases sd with _ | v <;>
    dsimp [orchStep, trySettle] <;>
    (try split) <;>
    simp_all [OrchTimerInv, settledNat, settleCount]

theorem orchRunFrom_inv (es : List OrchEvent) : ∀ (s : OrchState), OrchTimerInv s →
    OrchTimerInv (orchRunFrom s es).1
    ∧ settledNat s + settleCount (orchRunFrom s es).2 = settledNat (orchRunFrom s es).1 := by
  induction es with
  | nil => exact fun s h => ⟨h, by simp [orchRunFrom, settleCount]⟩
  | cons e es ih =>
    intro s h
    have hstep := orchStep_inv s e h
    have hrest := ih (orchStep s e).1 hstep.1
    refine ⟨hrest.1, ?_⟩
    have hs2 := hstep.2
    have hr2 := hrest.2
    simp only [orchRunFrom, settleCount_append]
    omega

/-- C2: for every event sequence whose run is complete (the overall deadline
timer has been cleared or has fired — an armed timer would still fire, so an
incomplete run is not final), the promise returned by `processVideo` records
exactly one observed settlement: the first `resolve`/`reject` wins and every
later one is a silent no-op, and at least one settlement always occurs. -/
theorem processVideo_settles_exactly_once (events : List OrchEvent)
    (hc : orchComplete (orchRun events).1 = true) :
    settleCount (orchRun events).2 = 1 := by
  have h0 : OrchTimerInv orchInitState := by
    constructor <;> intro h <;> simp [orchInitState] at h
  have hrun := orchRunFrom_inv events orchInitState h0
  have hfin : (orchRun events).1 = (orchRunFrom orchInitState events).1 := rfl
  rw [hfin] at hc
  simp only [orchComplete, Bool.or_eq_true] at hc
  have hsome : (orchRunFrom orchInitState events).1.settled.isSome = true := by
    rcases hc with h | h
    · exact hrun.1.1 h
    · exact hrun.1.2 h
  have hone : settledNat (orchRunFrom orchInitState events).1 = 1 := by
    simp [settledNat, hsome]
  have hz : settledNat orchInitState = 0 := rfl
  have h2 := hrun.2
  rw [orchRun_trace, settleCount_append]
  have hinit : settleCount orchInitEffects = 0 := rfl
  omega

/-- C2 (witness): a successful run (upload accepted, then a `done` frame) is
complete and records exactly one settlement. -/
theorem processVideo_settles_exactly_once_witness :
    orchComplete (orchRun [.uploadResolved ⟨some "received", some "v1"⟩,
        .frame ⟨.done, none, none⟩ 0]).1 = true
    ∧ settleCount (orchRun [.uploadResolved ⟨some "received", some "v1"⟩,
        .frame ⟨.done, none, none⟩ 0]).2 = 1 :=
  ⟨by decide, processVideo_settles_exactly_once _ (by decide)⟩

/-- C8: every rejection of `processVideo` is preceded in the effect trace by a
status-text update — the executor synchronously reports
`Uploading video...` before any suspension point, so the UI always has a
last-known message before any failure settles. -/
theorem statusText_before_rejection (events : List OrchEvent) (i : Nat) (msg : String)
    (h : (orchRun events).2.get? i = some (.settle (.error msg))) :
    ∃ j, j < i ∧ ∃ t, (orchRun events).2.get? j = some (.statusText t) := by
  have h0 : (orchRun events).2.get? 0 = some (.statusText "Uploading video...") := by
    rw [orchRun_trace]; rfl
  refine ⟨0, ?_, "Uploading video...", h0⟩
  rcases Nat.eq_zero_or_pos i with hi | hi
  · subst hi; rw [h0] at h; simp at h
  · exact hi

/-- C8 (witness): the upload-race timeout path rejects at trace index 2, after
the index-0 status text. -/
theorem statusText_before_rejection_witness :
    ∃ j, j < 2 ∧ ∃ t, (orchRun [.uploadTimerFire]).2.get? j = some (.statusText t) :=
  statusText_before_rejection [.uploadTimerFire] 2 "Upload timeout after 2 minutes" (by decide)

/-- C1 (counterexample): in a valid run where the upload succeeds, the overall
deadline fires (settlement at index 5), and one more `processing` frame
arrives, the channel is never torn down (no `wsCleanupCall` effect exists) and
a further status callback fires at index 7, after the failure — refuting the
claimed teardown and callback silence. -/
theorem overallTimeout_no_teardown_cex :
    orchValid overallTimeoutCexEvents = true
    ∧ (orchRun overallTimeoutCexEvents).2.get? 5 =
        some (.settle (.error overallTimeoutMsg))
    ∧ (orchRun overallTimeoutCexEvents).2.get? 7 =
        some (.statusText "Processing landmarks and analyzing gestures...")
    ∧ OrchEffect.wsCleanupCall ∉ (orchRun overallTimeoutCexEvents).2 := by
  decide

/-- C1 (amended): when the overall deadline timer fires before resolution, the
workflow fails with the overall-timeout error, but its timer callback performs
no teardown (its only effect is the rejection — in particular no
`wsCleanupCall`), and an open channel afterwards still drives status/progress
callbacks: a subsequent `processing` frame still emits them. -/
theorem overallTimeout_rejects_without_teardown (s : OrchState) (h : s.settled = none) :
    orchStep s .overallTimerFire =
      ({ s with timerFired := true, settled := some (.error overallTimeoutMsg) },
       [.settle (.error overallTimeoutMsg)])
    ∧ ∀ (st : ProcessingStatus) (r : Nat), st.status = .processing →
        (orchStep (orchStep s .overallTimerFire).1 (.frame st r)).2 =
          [.progress (min 90 (40 + r)),
           .statusText "Processing landmarks and analyzing gestures..."] := by
  constructor
  · simp [orchStep, trySettle, h]
  · rintro ⟨stat, vid, res⟩ r hst
    dsimp at hst
    subst hst
    simp [orchStep]

/-- C1 (amended, witness): firing the overall timer on a fresh invocation
rejects with the overall-timeout error and nothing else. -/
theorem overallTimeout_rejects_without_teardown_witness :
    orchStep orchInitState .overallTimerFire =
      ({ orchInitState with timerFired := true,
                            settled := some (.error overallTimeoutMsg) },
       [.settle (.error overallTimeoutMsg)]) :=
  (overallTimeout_rejects_without_teardown orchInitState rfl).1

end SignApp
